import Mathlib

/-!
# Verification of the LiteX vendor-toolchain adapters

A shallow embedding of the toolchain adapters found in
`litex/build/anlogic/anlogic.py`, `litex/build/microsemi/libero_soc.py`,
`litex/build/osfpga/osfpga.py`, `litex/build/quicklogic/symbiflow.py` and of
the Efinix PLL helper `litex/soc/cores/clock/efinix.py`.

Modelling conventions:
* A migen signal is identified by its design unique id (`duid`, the stable
  sort key the emitters use) together with a display name.
* Periods are rationals; the Python `math.floor(period*1e3)/1e3` becomes
  `roundPs`.  The decimal rendering of a period (`str(period)`) is kept
  abstract as a function parameter `pstr` where an emitter prints one.
* A Python `dict` is an association list in insertion order; a Python `set`
  is a duplicate-free list.
* Raised exceptions become `Except.error`; `ValueError("Clock already
  constrained ...")` is modelled structurally as `BuildErr.conflict old new`,
  which records exactly the two period values the message interpolates.
* A `build` call's observable effects are modelled by `BuildOutcome`: the
  returned value or propagated exception, the working directory of the
  process when the call exits, and the list of subprocess invocations made.
  The ambient state the call consumes (`shutil.which` result, subprocess exit
  status, errors raised by the external platform object during the
  finalize/serialize steps) is a `BuildEnv`.
-/

/-- A migen signal as the toolchains see it: identified by its design unique
id `duid` (the stable design-assigned identifier used as a sort key) and a
display name. -/
structure Sig where
  duid : Nat
  sname : String
deriving DecidableEq

/-- IO constraint attributes attached to a resolved pin assignment, from
`litex.build.generic_platform`: `Pins`, `IOStandard` and `Misc` (the three
kinds the excerpted emitters dispatch on). -/
inductive IOConstraint where
  | pins (identifiers : List String)
  | ioStandard (ioname : String)
  | misc (value : String)
deriving DecidableEq

/-- Exceptions raised by the adapters.  `conflict old new` is the
`ValueError("Clock already constrained to {:.2f}ns, new constraint to
{:.2f}ns")` carrying the recorded and the newly requested period; `osError`
is `OSError(msg)`. -/
inductive BuildErr where
  | conflict (old new : ℚ)
  | osError (msg : String)
deriving DecidableEq

/-- `math.floor(period*1e3)/1e3` — "round to lowest picosecond". -/
def roundPs (period : ℚ) : ℚ := (⌊period * 1000⌋ : ℚ) / 1000

/-- Python `str.upper()` on ASCII text, used by the OSFPGA adapter's
messages. -/
def strUpper (s : String) : String := ⟨s.data.map Char.toUpper⟩

/-- The `+=` string-accumulation loops of the emitters. -/
def strConcat : List String → String
  | [] => ""
  | x :: rest => x ++ strConcat rest

/-- The `self.clocks` dict of a toolchain: clock signal to requested period,
in insertion order. -/
abbrev Clocks := List (Sig × ℚ)

/-- `clk in self.clocks` / `self.clocks[clk]`. -/
def lookupClock : Clocks → Sig → Option ℚ
  | [], _ => none
  | e :: rest, clk => if e.1 = clk then some e.2 else lookupClock rest clk

/-- `self.clocks[clk] = period`: replace the entry in place (a Python dict
keeps the key's position) or append a new one. -/
def setClock : Clocks → Sig → ℚ → Clocks
  | [], clk, p => [(clk, p)]
  | e :: rest, clk, p => if e.1 = clk then (clk, p) :: rest else e :: setClock rest clk p

/-- `TangDinastyToolchain.add_period_constraint` (anlogic.py): round the
period down to the lowest picosecond; if the clock is already constrained to
a different (rounded) value raise `ValueError`, otherwise record the rounded
value.  (The `clk.attr.add("keep")` side effect touches only the signal's
attribute set and is not modelled.) -/
def TangDinastyToolchain.add_period_constraint (clocks : Clocks) (clk : Sig)
    (period : ℚ) : Except BuildErr Clocks :=
  let p := roundPs period
  match lookupClock clocks clk with
  | some old =>
    if p ≠ old then Except.error (BuildErr.conflict old p)
    else Except.ok (setClock clocks clk p)
  | none => Except.ok (setClock clocks clk p)

/-- `OSFPGAToolchain.add_period_constraint` (osfpga.py): textually identical
rounding logic to the Anlogic adapter. -/
def OSFPGAToolchain.add_period_constraint (clocks : Clocks) (clk : Sig)
    (period : ℚ) : Except BuildErr Clocks :=
  let p := roundPs period
  match lookupClock clocks clk with
  | some old =>
    if p ≠ old then Except.error (BuildErr.conflict old p)
    else Except.ok (setClock clocks clk p)
  | none => Except.ok (setClock clocks clk p)

/-- `MicrosemiLiberoSoCPolarfireToolchain.add_period_constraint`
(libero_soc.py).  NOTE: unlike the Anlogic/OSFPGA adapters this method does
NOT round — the raw period is compared against and stored in `self.clocks`. -/
def MicrosemiLiberoSoCPolarfireToolchain.add_period_constraint (clocks : Clocks)
    (clk : Sig) (period : ℚ) : Except BuildErr Clocks :=
  match lookupClock clocks clk with
  | some old =>
    if period ≠ old then Except.error (BuildErr.conflict old period)
    else Except.ok (setClock clocks clk period)
  | none => Except.ok (setClock clocks clk period)

/-- `MicrosemiLiberoSoCPolarfireToolchain.add_false_path_constraint`: on the
`self.false_paths` set (modelled as a duplicate-free list), insert
`(from_, to_)` unless the reversed pair is present; the second test models
the set's own idempotence.  The method is total: it has no error path. -/
def MicrosemiLiberoSoCPolarfireToolchain.add_false_path_constraint
    (fps : List (Sig × Sig)) (from_ to_ : Sig) : List (Sig × Sig) :=
  if (to_, from_) ∈ fps then fps
  else if (from_, to_) ∈ fps then fps
  else fps ++ [(from_, to_)]

/-- Python's `sorted(..., key=...)`, as an insertion sort by a key into a
linearly ordered type.  With pairwise-distinct keys (the case of interest:
`duid`s are unique per signal) the result does not depend on the input
order, see `sortByKey_eq_of_perm`. -/
def sortByKey {α κ : Type} [LinearOrder κ] (key : α → κ) (l : List α) : List α :=
  List.insertionSort (fun a b => key a ≤ key b) l

/-- One record of the `named_sc` table the platform's `resolve_signals`
produces: resolved signal name, pin list, attribute list, and the resource
entry (which none of the emitters use). -/
structure NamedSc where
  sig : String
  pins : List String
  others : List IOConstraint
  resname : String
deriving DecidableEq

namespace anlogic

/-- The `flat_sc` loop of `_build_adc`: a signal bound to more than one pin
is expanded to one `name[i]` entry per pin (in pin order), each carrying the
signal's whole attribute list; a single-pin signal keeps its name.  (The
source indexes `pins[0]`, implicitly assuming a non-empty pin list.) -/
def flat_sc (named_sc : List NamedSc) : List (String × String × List IOConstraint) :=
  (named_sc.map (fun e =>
    if e.pins.length > 1 then
      e.pins.enum.map (fun ip => (e.sig ++ "[" ++ toString ip.1 ++ "]", ip.2, e.others))
    else
      [(e.sig, e.pins.headD "", e.others)])).flatten

/-- One `set_pin_assignment` line of `_build_adc`: only `IOStandard`
attributes are formatted, all other attribute kinds are silently skipped;
the trailing pair of closing braces is the literal the source appends (an escaping quirk). -/
def adcLine (nm pin : String) (others : List IOConstraint) : String :=
  "set_pin_assignment \x7b" ++ nm ++ "\x7d \x7b LOCATION = " ++ pin ++ "; " ++
  strConcat (others.map (fun c => match c with
    | IOConstraint.ioStandard s => " IOSTANDARD = " ++ s ++ "; "
    | _ => "")) ++ "\x7d\x7d"

/-- The lines of `top.adc` written by `_build_adc`: the formatted flattened
entries followed by the platform constraint lines `named_pc`. -/
def _build_adc_lines (named_sc : List NamedSc) (named_pc : List String) : List String :=
  (flat_sc named_sc).map (fun e => adcLine e.1 e.2.1 e.2.2) ++ named_pc

/-- The body of `top.adc`. -/
def _build_adc (named_sc : List NamedSc) (named_pc : List String) : String :=
  String.intercalate "\n" (_build_adc_lines named_sc named_pc)

/-- The lines of `top.sdc` written by `_build_sdc` (anlogic.py): one
`create_clock` per recorded clock, sorted by the clock's `duid`.  `pstr`
renders the period (`str(period)`), `vns` is `vns.get_name`. -/
def _build_sdc_lines (pstr : ℚ → String) (vns : Sig → String) (clocks : Clocks) :
    List String :=
  (sortByKey (fun e => e.1.duid) clocks).map (fun e =>
    "create_clock -name " ++ vns e.1 ++ " -period " ++ pstr e.2 ++
    " [get_ports \x7b" ++ vns e.1 ++ "\x7d]")

/-- The body of `top.sdc`. -/
def _build_sdc (pstr : ℚ → String) (vns : Sig → String) (clocks : Clocks) : String :=
  String.intercalate "\n" (_build_sdc_lines pstr vns clocks)

/-- The per-source-file XML block of `_build_al`. -/
def alFileBlock (path : String) : List String :=
  ["            <File Path=\"" ++ path ++ "\">",
   "                <FileInfo>",
   "                    <Attr Name=\"UsedInSyn\" Val=\"true\"/>",
   "                    <Attr Name=\"UsedInP&R\" Val=\"true\"/>",
   "                    <Attr Name=\"BelongTo\" Val=\"design_1\"/>",
   "                    <Attr Name=\"CompileOrder\" Val=\"1\"/>",
   "               </FileInfo>",
   "            </File>"]

/-- The lines of the `.al` project file written by `_build_al`.  `date` is
`datetime.datetime.now().strftime("%Y-%m-%d %H:%M:%S")`, read from the clock
at emission time; it appears in `Project_Created_Time` (line index 2) and in
`Step_Last_Change`.  `files` are `(path, language, library)` triples of which
only the path is used. -/
def _build_al_lines (nm family device : String) (files : List (String × String × String))
    (date : String) : List String :=
  ["<?xml version=\"1.0\" encoding=\"UTF-8\"?>",
   "<Project Version=\"1\" Path=\"...\">",
   "    <Project_Created_Time>" ++ date ++ "</Project_Created_Time>",
   "    <TD_Version>5.0.28716</TD_Version>",
   "    <UCode>00000000</UCode>",
   "    <Name>" ++ nm ++ "</Name>",
   "    <HardWare>",
   "        <Family>" ++ family ++ "</Family>",
   "        <Device>" ++ device ++ "</Device>",
   "    </HardWare>",
   "    <Source_Files>",
   "        <Verilog>"] ++
  (files.map (fun f => alFileBlock f.1)).flatten ++
  ["        </Verilog>",
   "        <ADC_FILE>",
   "            <File Path=\"top.adc\">",
   "                <FileInfo>",
   "                    <Attr Name=\"UsedInSyn\" Val=\"true\"/>",
   "                    <Attr Name=\"UsedInP&R\" Val=\"true\"/>",
   "                    <Attr Name=\"BelongTo\" Val=\"constrain_1\"/>",
   "                    <Attr Name=\"CompileOrder\" Val=\"1\"/>",
   "               </FileInfo>",
   "            </File>",
   "        </ADC_FILE>",
   "        <SDC_FILE>",
   "            <File Path=\"top.sdc\">",
   "                <FileInfo>",
   "                    <Attr Name=\"UsedInSyn\" Val=\"true\"/>",
   "                    <Attr Name=\"UsedInP&R\" Val=\"true\"/>",
   "                    <Attr Name=\"BelongTo\" Val=\"constrain_1\"/>",
   "                    <Attr Name=\"CompileOrder\" Val=\"2\"/>",
   "               </FileInfo>",
   "            </File>",
   "        </SDC_FILE>",
   "    </Source_Files>",
   "   <FileSets>",
   "        <FileSet Name=\"constrain_1\" Type=\"ConstrainFiles\">",
   "        </FileSet>",
   "        <FileSet Name=\"design_1\" Type=\"DesignFiles\">",
   "        </FileSet>",
   "    </FileSets>",
   "    <TOP_MODULE>",
   "        <LABEL></LABEL>",
   "        <MODULE>" ++ nm ++ "</MODULE>",
   "        <CREATEINDEX>auto</CREATEINDEX>",
   "    </TOP_MODULE>",
   "    <Property>",
   "    </Property>",
   "    <Device_Settings>",
   "    </Device_Settings>",
   "    <Configurations>",
   "    </Configurations>",
   "    <Project_Settings>",
   "        <Step_Last_Change>" ++ date ++ "</Step_Last_Change>",
   "        <Current_Step>0</Current_Step>",
   "        <Step_Status>true</Step_Status>",
   "    </Project_Settings>",
   "</Project>"]

/-- The body of the `.al` project file (`"\n".join(xml)`). -/
def _build_al (nm family device : String) (files : List (String × String × String))
    (date : String) : String :=
  String.intercalate "\n" (_build_al_lines nm family device files date)

end anlogic

namespace libero_soc

/-- `tcl_name`: wrap a name in TCL braces. -/
def tcl_name (nm : String) : String := "\x7b" ++ nm ++ "\x7d"

/-- `_format_io_constraint`: one directive fragment per attribute kind.
(The source raises `NotImplementedError` on attribute classes outside the
three kinds modelled here.) -/
def _format_io_constraint : IOConstraint → String
  | IOConstraint.pins ids => "-pin_name " ++ ids.headD "" ++ " "
  | IOConstraint.ioStandard nm => "-io_std " ++ nm ++ " "
  | IOConstraint.misc v => "-RES_PULL " ++ v ++ " "

/-- `_format_io_pdc`: a `set_io` line carrying `Pins(pin)` followed by every
attribute of the parent signal. -/
def _format_io_pdc (signame pin : String) (others : List IOConstraint) : String :=
  "set_io " ++ "-port_name " ++ tcl_name signame ++ " " ++
  strConcat ((IOConstraint.pins [pin] :: others).map _format_io_constraint) ++
  "-fixed true " ++ "\n"

/-- The `set_io` entries of `_build_io_pdc`, one per (expanded) pin: a
multi-bit signal becomes `sig[i]` entries in pin order, each formatted with
the signal's whole attribute list. -/
def _build_io_pdc_entries (named_sc : List NamedSc) : List String :=
  (named_sc.map (fun e =>
    if e.pins.length > 1 then
      e.pins.enum.map (fun ip =>
        _format_io_pdc (e.sig ++ "[" ++ toString ip.1 ++ "]") ip.2 e.others)
    else
      [_format_io_pdc e.sig (e.pins.headD "") e.others])).flatten

/-- The body of `<build_name>_io.pdc`. -/
def _build_io_pdc (named_sc : List NamedSc) (additional_io_constraints : List String) :
    String :=
  strConcat (_build_io_pdc_entries named_sc) ++
  String.intercalate "\n" additional_io_constraints

/-- The lines of `<build_name>.sdc` written by `_build_timing_sdc`: the
`create_clock` directives sorted by the clock's `duid`, then the
`set_clock_groups` directives sorted by the pair `(from_.duid, to.duid)`
lexicographically, then the additional timing constraints.  `pstr` renders
the period.  In the `create_clock` template only the last concatenated
literal is `.format`ed, so the `-name` field keeps the literal text between
braces while `get_nets` receives `vns.get_name(clk)`; the `set_clock_groups`
template interpolates `str(signal)`, modelled by `sstr`. -/
def _build_timing_sdc_lines (pstr : ℚ → String) (vns sstr : Sig → String)
    (clocks : Clocks) (false_paths : List (Sig × Sig))
    (additional_timing_constraints : List String) : List String :=
  ((sortByKey (fun e => e.1.duid) clocks).map (fun e =>
    "create_clock -name \x7bclk\x7d -period " ++ pstr e.2 ++
    " [get_nets " ++ vns e.1 ++ "]")) ++
  ((sortByKey (fun p => toLex (p.1.duid, p.2.duid)) false_paths).map (fun p =>
    "set_clock_groups -group [get_clocks -include_generated_clocks -of [get_nets " ++
    sstr p.1 ++ "]] -group [get_clocks -include_generated_clocks -of [get_nets " ++
    sstr p.2 ++ "]] -asynchronous")) ++
  additional_timing_constraints

/-- The body of `<build_name>.sdc`. -/
def _build_timing_sdc (pstr : ℚ → String) (vns sstr : Sig → String)
    (clocks : Clocks) (false_paths : List (Sig × Sig))
    (additional_timing_constraints : List String) : String :=
  String.intercalate "\n"
    (_build_timing_sdc_lines pstr vns sstr clocks false_paths
      additional_timing_constraints)

end libero_soc

namespace symbiflow

/-- `_format_io_pcf` (symbiflow.py): a bare `set_io` line.  NOTE: the
`others` attribute list is accepted and entirely ignored — no attribute is
emitted. -/
def _format_io_pcf (signame pin : String) (_others : List IOConstraint) : String :=
  "set_io " ++ signame ++ " " ++ pin ++ "\n"

/-- The `set_io` entries of `_build_io_pcf`: a multi-bit signal expands to
`sig(i)` entries in pin order. -/
def _build_io_pcf_entries (named_sc : List NamedSc) : List String :=
  (named_sc.map (fun e =>
    if e.pins.length > 1 then
      e.pins.enum.map (fun ip =>
        _format_io_pcf (e.sig ++ "(" ++ toString ip.1 ++ ")") ip.2 e.others)
    else
      [_format_io_pcf e.sig (e.pins.headD "") e.others])).flatten

/-- The body of `<build_name>.pcf`. -/
def _build_io_pcf (named_sc : List NamedSc) : String :=
  strConcat (_build_io_pcf_entries named_sc)

end symbiflow

namespace osfpga

/-- The lines of `<build_name>.sdc` written by `_build_sdc` (osfpga.py):
textually identical to the Anlogic `_build_sdc` emitter. -/
def _build_sdc_lines (pstr : ℚ → String) (vns : Sig → String) (clocks : Clocks) :
    List String :=
  (sortByKey (fun e => e.1.duid) clocks).map (fun e =>
    "create_clock -name " ++ vns e.1 ++ " -period " ++ pstr e.2 ++
    " [get_ports \x7b" ++ vns e.1 ++ "\x7d]")

end osfpga

/-- The ambient process state a `build` call consumes: an error raised by the
platform during the finalize/serialize steps (`none` = those steps succeed),
the result of `shutil.which` for the vendor executable, and the exit status
of the vendor subprocess (consulted only if the subprocess is invoked). -/
structure BuildEnv where
  finalizeErr : Option BuildErr
  whichResult : Option String
  exitCode : Int
deriving DecidableEq

/-- The observable outcome of a `build` call: the returned value or the
propagated exception, the process working directory when the call exits, and
the subprocess command lines invoked, in order. -/
structure BuildOutcome where
  result : Except BuildErr Unit
  finalCwd : String
  calls : List (List String)

/-- `os.chdir(build_dir)` from `cwd` (the build directory is a relative
path). -/
def joinPath (cwd dir : String) : String := cwd ++ "/" ++ dir

/-- The message of the Anlogic `OSError` raised when `which("td")` fails. -/
def tangNotFoundMsg : String :=
  "Unable to find Tang Dinasty toolchain, please:\n- Add  Tang Dinasty toolchain to your $PATH."

/-- The message of the Anlogic `OSError` raised on a non-zero `td` exit. -/
def tangExecFailMsg : String :=
  "Error occured during Tang Dinasty\x27s script execution."

/-- `TangDinastyToolchain.build` (anlogic.py), as its effect on the working
directory, the raised exception and the subprocess invocations.  The call
saves `cwd`, enters `build_dir`, runs finalize/serialize and the emitters
(which raise no exception themselves), optionally checks `which("td")` and
runs `td run.tcl`, and only then — on the success path — restores `cwd`:
`os.chdir(cwd)` is not in a `finally` block, so any raised exception leaves
the process inside the build directory. -/
def TangDinastyToolchain.build (env : BuildEnv) (cwd build_dir : String)
    (run : Bool) : BuildOutcome :=
  let cur := joinPath cwd build_dir
  match env.finalizeErr with
  | some e => { result := Except.error e, finalCwd := cur, calls := [] }
  | none =>
    if run then
      match env.whichResult with
      | none =>
        { result := Except.error (BuildErr.osError tangNotFoundMsg),
          finalCwd := cur, calls := [] }
      | some _ =>
        if env.exitCode ≠ 0 then
          { result := Except.error (BuildErr.osError tangExecFailMsg),
            finalCwd := cur, calls := [["td", "run.tcl"]] }
        else
          { result := Except.ok (), finalCwd := cwd, calls := [["td", "run.tcl"]] }
    else { result := Except.ok (), finalCwd := cwd, calls := [] }

/-- The message of the OSFPGA `OSError` raised when `which(toolchain)`
fails. -/
def osfpgaNotFoundMsg (toolchain : String) : String :=
  "Unable to find " ++ strUpper toolchain ++ " toolchain, please:\n- Add " ++
  strUpper toolchain ++ " toolchain to your $PATH."

/-- The message of the OSFPGA `OSError` raised on a non-zero exit. -/
def osfpgaExecFailMsg (toolchain : String) : String :=
  "Error occured during " ++ strUpper toolchain ++ "\x27s script execution."

/-- `OSFPGAToolchain.build` (osfpga.py): same control flow as the Anlogic
adapter, with the vendor executable given by `self.toolchain`. -/
def OSFPGAToolchain.build (toolchain : String) (env : BuildEnv)
    (cwd build_dir : String) (run : Bool) : BuildOutcome :=
  let cur := joinPath cwd build_dir
  match env.finalizeErr with
  | some e => { result := Except.error e, finalCwd := cur, calls := [] }
  | none =>
    if run then
      match env.whichResult with
      | none =>
        { result := Except.error (BuildErr.osError (osfpgaNotFoundMsg toolchain)),
          finalCwd := cur, calls := [] }
      | some _ =>
        if env.exitCode ≠ 0 then
          { result := Except.error (BuildErr.osError (osfpgaExecFailMsg toolchain)),
            finalCwd := cur,
            calls := [[toolchain, "--batch", "--script", "build.tcl"]] }
        else
          { result := Except.ok (), finalCwd := cwd,
            calls := [[toolchain, "--batch", "--script", "build.tcl"]] }
    else { result := Except.ok (), finalCwd := cwd, calls := [] }

/-- The message of the QuickLogic `OSError` raised when
`which("ql_symbiflow")` fails. -/
def symbiflowNotFoundMsg : String :=
  "Unable to find QuickLogic Symbiflow toolchain, please:\n- Add QuickLogic Symbiflow toolchain to your $PATH."

/-- The message of the QuickLogic `OSError` raised on a non-zero `make`
exit. -/
def symbiflowExecFailMsg : String :=
  "Error occured during QuickLogic Symbiflow\x27s script execution."

/-- `SymbiflowToolchain.build` (symbiflow.py) with `_run_make` inlined:
checks `which("ql_symbiflow")` before invoking `make -j1`. -/
def SymbiflowToolchain.build (env : BuildEnv) (cwd build_dir : String)
    (run : Bool) : BuildOutcome :=
  let cur := joinPath cwd build_dir
  match env.finalizeErr with
  | some e => { result := Except.error e, finalCwd := cur, calls := [] }
  | none =>
    if run then
      match env.whichResult with
      | none =>
        { result := Except.error (BuildErr.osError symbiflowNotFoundMsg),
          finalCwd := cur, calls := [] }
      | some _ =>
        if env.exitCode ≠ 0 then
          { result := Except.error (BuildErr.osError symbiflowExecFailMsg),
            finalCwd := cur, calls := [["make", "-j1"]] }
        else
          { result := Except.ok (), finalCwd := cwd, calls := [["make", "-j1"]] }
    else { result := Except.ok (), finalCwd := cwd, calls := [] }

/-- `MicrosemiLiberoSoCPolarfireToolchain.build` (libero_soc.py) with
`_run_script` inlined, on a POSIX host (`shell = ["bash"]`).  NOTE: the run
step performs NO `shutil.which` check — `env.whichResult` (the ambient PATH
lookup for the vendor executable) is deliberately never consulted; the shell
is invoked on the generated `build_<name>.sh` script unconditionally, and a
non-zero exit raises the generic `OSError("Subprocess failed")`. -/
def MicrosemiLiberoSoCPolarfireToolchain.build (env : BuildEnv)
    (cwd build_dir : String) (run : Bool) (build_name : String) : BuildOutcome :=
  let cur := joinPath cwd build_dir
  match env.finalizeErr with
  | some e => { result := Except.error e, finalCwd := cur, calls := [] }
  | none =>
    if run then
      if env.exitCode ≠ 0 then
        { result := Except.error (BuildErr.osError "Subprocess failed"),
          finalCwd := cur, calls := [["bash", "build_" ++ build_name ++ ".sh"]] }
      else
        { result := Except.ok (), finalCwd := cwd,
          calls := [["bash", "build_" ++ build_name ++ ".sh"]] }
    else { result := Except.ok (), finalCwd := cwd, calls := [] }

/-- `EFINIXPLL` instance state (efinix.py): the PLL type string, the
`nclkouts_max` class attribute of the class the instance was created
through, the `nclkouts` counter, the accumulated `clk_out` block entries
`(clk_out_name, freq, phase, margin)`, and `self.name`. -/
structure EFINIXPLL where
  typ : String
  nclkouts_max : Nat
  nclkouts : Nat
  clk_out : List (String × ℚ × ℚ × ℚ)
  pll_name : String
deriving DecidableEq

/-- `TRIONPLL(platform, n)`: `nclkouts_max = 3`, version `V1_V2`. -/
def TRIONPLL.init (n : Nat) : EFINIXPLL :=
  { typ := "TRIONPLL", nclkouts_max := 3, nclkouts := 0, clk_out := [],
    pll_name := "pll" ++ toString n }

/-- `TITANIUMPLL(platform, n)`: `nclkouts_max = 5`, version `V3`. -/
def TITANIUMPLL.init (n : Nat) : EFINIXPLL :=
  { typ := "TITANIUMPLL", nclkouts_max := 5, nclkouts := 0, clk_out := [],
    pll_name := "pll" ++ toString n }

/-- `EFINIXPLL.create_clkout`: `assert self.nclkouts < self.nclkouts_max` is
the first statement; on success the clock-output entry is appended and
`nclkouts` incremented.  `none` models the assertion failing before any
state change. -/
def EFINIXPLL.create_clkout (pll : EFINIXPLL) (freq phase margin : ℚ)
    (nm : String) : Option EFINIXPLL :=
  if pll.nclkouts < pll.nclkouts_max then
    let clk_out_name :=
      if nm = "" then pll.pll_name ++ "_clkout" ++ toString pll.nclkouts else nm
    some { pll with nclkouts := pll.nclkouts + 1,
                    clk_out := pll.clk_out ++ [(clk_out_name, freq, phase, margin)] }
  else none

/-- A sequence of `create_clkout` calls (`(freq, phase, margin, name)` each);
a failed assertion aborts the remaining calls. -/
def EFINIXPLL.run_clkouts (pll : EFINIXPLL) :
    List (ℚ × ℚ × ℚ × String) → Option EFINIXPLL
  | [] => some pll
  | c :: rest =>
    match pll.create_clkout c.1 c.2.1 c.2.2.1 c.2.2.2 with
    | none => none
    | some pll2 => pll2.run_clkouts rest

/-- A sequence of `add_false_path_constraint` calls on the two orientations
of one clock pair: `true` stands for `add_false_path_constraint(a, b)`,
`false` for `add_false_path_constraint(b, a)`. -/
def applyFalsePathCalls (a b : Sig) : List Bool → List (Sig × Sig) → List (Sig × Sig)
  | [], fps => fps
  | c :: cs, fps =>
    applyFalsePathCalls a b cs
      (if c then MicrosemiLiberoSoCPolarfireToolchain.add_false_path_constraint fps a b
       else MicrosemiLiberoSoCPolarfireToolchain.add_false_path_constraint fps b a)

/-! ## Helper lemmas -/

theorem sortByKey_eq_of_perm {α κ : Type} [LinearOrder κ] (key : α → κ)
    {l1 l2 : List α} (hp : List.Perm l1 l2) (hnd : (l1.map key).Nodup) :
    sortByKey key l1 = sortByKey key l2 := by
  haveI : IsTotal α (fun a b => key a ≤ key b) := ⟨fun a b => le_total (key a) (key b)⟩
  haveI : IsTrans α (fun a b => key a ≤ key b) := ⟨fun _ _ _ h h' => le_trans h h'⟩
  haveI : IsAntisymm α (fun a b => key a < key b) :=
    ⟨fun _ _ h h' => absurd h' (not_lt_of_lt h)⟩
  have hperm : List.Perm (sortByKey key l1) (sortByKey key l2) :=
    ((List.perm_insertionSort _ l1).trans hp).trans (List.perm_insertionSort _ l2).symm
  have hs1 : List.Sorted (fun a b => key a ≤ key b) (sortByKey key l1) :=
    List.sorted_insertionSort _ l1
  have hs2 : List.Sorted (fun a b => key a ≤ key b) (sortByKey key l2) :=
    List.sorted_insertionSort _ l2
  have hnd1 : ((sortByKey key l1).map key).Nodup :=
    hnd.perm ((List.perm_insertionSort _ l1).map key).symm
  have hnd2 : ((sortByKey key l2).map key).Nodup := hnd1.perm (hperm.map key)
  have hstrict1 : List.Sorted (fun a b => key a < key b) (sortByKey key l1) :=
    List.Pairwise.imp₂ (fun _ _ hle hne => lt_of_le_of_ne hle hne) hs1
      (List.pairwise_map.mp hnd1)
  have hstrict2 : List.Sorted (fun a b => key a < key b) (sortByKey key l2) :=
    List.Pairwise.imp₂ (fun _ _ hle hne => lt_of_le_of_ne hle hne) hs2
      (List.pairwise_map.mp hnd2)
  exact List.eq_of_perm_of_sorted hperm hstrict1 hstrict2

/-- Cancel a common prefix and suffix of a string concatenation. -/
theorem string_sandwich_inj (p s d1 d2 : String)
    (h : p ++ d1 ++ s = p ++ d2 ++ s) : d1 = d2 := by
  have h' : p.data ++ d1.data ++ s.data = p.data ++ d2.data ++ s.data := by
    have hd := congrArg String.data h
    simpa [String.data_append] using hd
  exact String.ext (List.append_cancel_left (List.append_cancel_right h'))

/-- What `lookupClock` reads back after `setClock`. -/
theorem lookupClock_setClock (cs : Clocks) (clk : Sig) (p : ℚ) :
    lookupClock (setClock cs clk p) clk = some p := by
  induction cs with
  | nil => simp [setClock, lookupClock]
  | cons e rest ih =>
    by_cases h : e.1 = clk
    · simp [setClock, lookupClock, h]
    · simp [setClock, lookupClock, h, ih]

/-- A member's image is inside the concatenation of the images. -/
theorem infix_strConcat_of_mem {α : Type} (f : α → String) {l : List α} {x : α}
    (hx : x ∈ l) : (f x).data <:+: (strConcat (l.map f)).data := by
  induction l with
  | nil => cases hx
  | cons y rest ih =>
    rcases List.mem_cons.mp hx with rfl | hx'
    · exact ⟨[], (strConcat (rest.map f)).data, by simp [strConcat, String.data_append]⟩
    · rcases ih hx' with ⟨s, t, hst⟩
      exact ⟨(f y).data ++ s, t, by
        simp [strConcat, String.data_append, ← hst, List.append_assoc]⟩

/-- An infix of `m` is an infix of `p ++ m ++ s`. -/
theorem infix_extend (d : List Char) (p m s : String) (h : d <:+: m.data) :
    d <:+: (p ++ m ++ s).data := by
  rcases h with ⟨u, v, huv⟩
  exact ⟨p.data ++ u, v ++ s.data, by
    simp [String.data_append, ← huv, List.append_assoc]⟩

/-- Once one orientation of a false path is stored,
`add_false_path_constraint` is a no-op for both orientations. -/
theorem add_false_path_noop (fps : List (Sig × Sig)) (a b : Sig)
    (h : (a, b) ∈ fps ∨ (b, a) ∈ fps) :
    MicrosemiLiberoSoCPolarfireToolchain.add_false_path_constraint fps a b = fps ∧
    MicrosemiLiberoSoCPolarfireToolchain.add_false_path_constraint fps b a = fps := by
  unfold MicrosemiLiberoSoCPolarfireToolchain.add_false_path_constraint
  rcases h with h | h
  · constructor
    · by_cases hba : (b, a) ∈ fps
      · simp [hba]
      · simp [hba, h]
    · simp [h]
  · constructor
    · simp [h]
    · by_cases hab : (a, b) ∈ fps
      · simp [hab]
      · simp [hab, h]

/-- Once one orientation of the pair is stored, a whole sequence of calls on
either orientation is a no-op. -/
theorem applyFalsePathCalls_noop (a b : Sig) (cs : List Bool)
    (fps : List (Sig × Sig)) (h : (a, b) ∈ fps ∨ (b, a) ∈ fps) :
    applyFalsePathCalls a b cs fps = fps := by
  induction cs with
  | nil => rfl
  | cons c rest ih =>
    rcases add_false_path_noop fps a b h with ⟨hab, hba⟩
    cases c <;> simp [applyFalsePathCalls, hab, hba, ih]

/-! ## Claims -/

/-- C1 counterexample.  `20001/2000 = 10.0005` and `25001/2500 = 10.0004`
both round down to `10.000`, yet the Microsemi adapter — which does not
round — accepts the first call and rejects the second with the conflict
error, instead of succeeding as the claim states for every toolchain. -/
theorem c1_counterexample :
    roundPs (20001/2000) = roundPs (25001/2500) ∧
    MicrosemiLiberoSoCPolarfireToolchain.add_period_constraint []
        ⟨0, "clk"⟩ (20001/2000)
      = Except.ok [(⟨0, "clk"⟩, 20001/2000)] ∧
    MicrosemiLiberoSoCPolarfireToolchain.add_period_constraint
        [(⟨0, "clk"⟩, 20001/2000)] ⟨0, "clk"⟩ (25001/2500)
      = Except.error (BuildErr.conflict (20001/2000) (25001/2500)) := by
  refine ⟨by norm_num [roundPs], rfl, ?_⟩
  simp only [MicrosemiLiberoSoCPolarfireToolchain.add_period_constraint, lookupClock,
    if_pos rfl]
  norm_num

/-- C1 (amended).  For the Anlogic and OSFPGA toolchains the claim holds as
stated: two `add_period_constraint` calls on a previously unconstrained
clock whose periods have the same rounded picosecond value both succeed, and
the recorded period is the first rounded value `floor(p1*1000)/1000`.  The
Microsemi toolchain performs no rounding: it records the raw `p1`, and a
second call succeeds exactly when `p2` equals the recorded raw value,
raising the conflict `ValueError` otherwise. -/
theorem c1_add_period_constraint_same_rounded :
    (∀ (cs : Clocks) (clk : Sig) (p1 p2 : ℚ),
      roundPs p1 = roundPs p2 → lookupClock cs clk = none →
      TangDinastyToolchain.add_period_constraint cs clk p1
          = Except.ok (setClock cs clk (roundPs p1)) ∧
        TangDinastyToolchain.add_period_constraint
            (setClock cs clk (roundPs p1)) clk p2
          = Except.ok (setClock (setClock cs clk (roundPs p1)) clk (roundPs p2)) ∧
        lookupClock
            (setClock (setClock cs clk (roundPs p1)) clk (roundPs p2)) clk
          = some (roundPs p1)) ∧
    (∀ (cs : Clocks) (clk : Sig) (p1 p2 : ℚ),
      roundPs p1 = roundPs p2 → lookupClock cs clk = none →
      OSFPGAToolchain.add_period_constraint cs clk p1
          = Except.ok (setClock cs clk (roundPs p1)) ∧
        OSFPGAToolchain.add_period_constraint (setClock cs clk (roundPs p1)) clk p2
          = Except.ok (setClock (setClock cs clk (roundPs p1)) clk (roundPs p2)) ∧
        lookupClock
            (setClock (setClock cs clk (roundPs p1)) clk (roundPs p2)) clk
          = some (roundPs p1)) ∧
    (∀ (cs : Clocks) (clk : Sig) (p1 p2 : ℚ), lookupClock cs clk = none →
      MicrosemiLiberoSoCPolarfireToolchain.add_period_constraint cs clk p1
          = Except.ok (setClock cs clk p1) ∧
        (p2 = p1 →
          MicrosemiLiberoSoCPolarfireToolchain.add_period_constraint
              (setClock cs clk p1) clk p2
            = Except.ok (setClock (setClock cs clk p1) clk p2)) ∧
        (p2 ≠ p1 →
          MicrosemiLiberoSoCPolarfireToolchain.add_period_constraint
              (setClock cs clk p1) clk p2
            = Except.error (BuildErr.conflict p1 p2))) := by
  refine ⟨?_, ?_, ?_⟩
  · intro cs clk p1 p2 hr hnone
    refine ⟨?_, ?_, ?_⟩
    · simp [TangDinastyToolchain.add_period_constraint, hnone]
    · simp [TangDinastyToolchain.add_period_constraint, lookupClock_setClock, hr]
    · rw [lookupClock_setClock, hr]
  · intro cs clk p1 p2 hr hnone
    refine ⟨?_, ?_, ?_⟩
    · simp [OSFPGAToolchain.add_period_constraint, hnone]
    · simp [OSFPGAToolchain.add_period_constraint, lookupClock_setClock, hr]
    · rw [lookupClock_setClock, hr]
  · intro cs clk p1 p2 hnone
    refine ⟨?_, ?_, ?_⟩
    · simp [MicrosemiLiberoSoCPolarfireToolchain.add_period_constraint, hnone]
    · intro he
      simp [MicrosemiLiberoSoCPolarfireToolchain.add_period_constraint,
        lookupClock_setClock, he]
    · intro hne
      simp [MicrosemiLiberoSoCPolarfireToolchain.add_period_constraint,
        lookupClock_setClock, hne]

/-- C1 witness: the Anlogic part at `p1 = 10.0005`, `p2 = 10.0004` on a
fresh clock. -/
theorem c1_witness :
    TangDinastyToolchain.add_period_constraint [] ⟨0, "sys"⟩ (20001/2000)
        = Except.ok (setClock [] ⟨0, "sys"⟩ (roundPs (20001/2000))) ∧
      TangDinastyToolchain.add_period_constraint
          (setClock [] ⟨0, "sys"⟩ (roundPs (20001/2000))) ⟨0, "sys"⟩ (25001/2500)
        = Except.ok (setClock (setClock [] ⟨0, "sys"⟩ (roundPs (20001/2000)))
            ⟨0, "sys"⟩ (roundPs (25001/2500))) ∧
      lookupClock (setClock (setClock [] ⟨0, "sys"⟩ (roundPs (20001/2000)))
          ⟨0, "sys"⟩ (roundPs (25001/2500))) ⟨0, "sys"⟩
        = some (roundPs (20001/2000)) :=
  c1_add_period_constraint_same_rounded.1 [] ⟨0, "sys"⟩ (20001/2000) (25001/2500)
    (by norm_num [roundPs]) rfl

/-- C2 counterexample.  On the Microsemi adapter, constrain a clock to
`20001/2000 = 10.0005` (recorded raw, unrounded).  A second call supplying
the same `10.0005` has a rounded value (`10.000`) that differs from the
recorded period, yet it succeeds instead of failing with the conflict
error. -/
theorem c2_counterexample :
    MicrosemiLiberoSoCPolarfireToolchain.add_period_constraint []
        ⟨0, "clk"⟩ (20001/2000)
      = Except.ok [(⟨0, "clk"⟩, 20001/2000)] ∧
    lookupClock [(⟨0, "clk"⟩, 20001/2000)] ⟨0, "clk"⟩ = some (20001/2000) ∧
    roundPs (20001/2000) ≠ 20001/2000 ∧
    MicrosemiLiberoSoCPolarfireToolchain.add_period_constraint
        [(⟨0, "clk"⟩, 20001/2000)] ⟨0, "clk"⟩ (20001/2000)
      = Except.ok [(⟨0, "clk"⟩, 20001/2000)] := by
  refine ⟨rfl, by simp [lookupClock], by norm_num [roundPs], ?_⟩
  simp [MicrosemiLiberoSoCPolarfireToolchain.add_period_constraint, lookupClock,
    setClock]

/-- C2 (amended).  For the Anlogic and OSFPGA toolchains the claim holds as
stated: when a clock has a recorded (rounded) period and the new period's
rounded value differs from it, the call fails with the conflict `ValueError`
reporting both values (recorded first, new rounded value second) and no
state is produced, so the recorded period is not overwritten.  For the
Microsemi toolchain the comparison is on raw values: the call fails, with
both raw values reported, exactly when the new raw period differs from the
recorded raw period. -/
theorem c2_conflicting_period_rejected :
    (∀ (cs : Clocks) (clk : Sig) (old p2 : ℚ),
      lookupClock cs clk = some old → roundPs p2 ≠ old →
      TangDinastyToolchain.add_period_constraint cs clk p2
        = Except.error (BuildErr.conflict old (roundPs p2))) ∧
    (∀ (cs : Clocks) (clk : Sig) (old p2 : ℚ),
      lookupClock cs clk = some old → roundPs p2 ≠ old →
      OSFPGAToolchain.add_period_constraint cs clk p2
        = Except.error (BuildErr.conflict old (roundPs p2))) ∧
    (∀ (cs : Clocks) (clk : Sig) (old p2 : ℚ),
      lookupClock cs clk = some old → p2 ≠ old →
      MicrosemiLiberoSoCPolarfireToolchain.add_period_constraint cs clk p2
        = Except.error (BuildErr.conflict old p2)) := by
  refine ⟨?_, ?_, ?_⟩
  · intro cs clk old p2 hsome hne
    simp [TangDinastyToolchain.add_period_constraint, hsome, hne]
  · intro cs clk old p2 hsome hne
    simp [OSFPGAToolchain.add_period_constraint, hsome, hne]
  · intro cs clk old p2 hsome hne
    simp [MicrosemiLiberoSoCPolarfireToolchain.add_period_constraint, hsome, hne]

/-- C2 witness: the Anlogic part with a clock recorded at `10` and a new
request of `11`. -/
theorem c2_witness :
    TangDinastyToolchain.add_period_constraint [(⟨0, "sys"⟩, 10)] ⟨0, "sys"⟩ 11
      = Except.error (BuildErr.conflict 10 (roundPs 11)) :=
  c2_conflicting_period_rejected.1 [(⟨0, "sys"⟩, 10)] ⟨0, "sys"⟩ 10 11
    (by simp [lookupClock]) (by norm_num [roundPs])

/-- C3 (confirmed).  Starting from a state holding neither orientation of
the pair, any non-empty sequence of `add_false_path_constraint` calls on
`(a, b)` and `(b, a)` — in either order, any number of times — leaves the
state extended by exactly the first call's pair, so exactly one stored pair
matches the unordered pair.  The method is a total function: it has no
error path. -/
theorem c3_false_path_unordered_pair_once :
    ∀ (fps : List (Sig × Sig)) (a b : Sig) (c : Bool) (cs : List Bool),
      (a, b) ∉ fps → (b, a) ∉ fps →
      applyFalsePathCalls a b (c :: cs) fps
          = fps ++ [if c then (a, b) else (b, a)] ∧
        (applyFalsePathCalls a b (c :: cs) fps).countP
            (fun p => decide (p = (a, b) ∨ p = (b, a))) = 1 := by
  intro fps a b c cs hab hba
  have hfirst :
      (if c then MicrosemiLiberoSoCPolarfireToolchain.add_false_path_constraint fps a b
       else MicrosemiLiberoSoCPolarfireToolchain.add_false_path_constraint fps b a)
        = fps ++ [if c then (a, b) else (b, a)] := by
    cases c <;>
      simp [MicrosemiLiberoSoCPolarfireToolchain.add_false_path_constraint, hab, hba]
  have hrest :
      applyFalsePathCalls a b (c :: cs) fps = fps ++ [if c then (a, b) else (b, a)] := by
    rw [applyFalsePathCalls, hfirst]
    refine applyFalsePathCalls_noop a b cs _ ?_
    cases c
    · exact Or.inr (by simp)
    · exact Or.inl (by simp)
  refine ⟨hrest, ?_⟩
  rw [hrest, List.countP_append]
  have h0 : fps.countP (fun p => decide (p = (a, b) ∨ p = (b, a))) = 0 := by
    rw [List.countP_eq_zero]
    intro p hp
    simp only [decide_eq_true_eq, not_or]
    exact ⟨fun h => hab (h ▸ hp), fun h => hba (h ▸ hp)⟩
  rw [h0]
  cases c <;> simp [List.countP_cons]

/-- C3 witness: the fresh pair `(a, b)`, then the call sequence
`add(a,b); add(b,a); add(a,b)` from the empty state. -/
theorem c3_witness :
    applyFalsePathCalls ⟨0, "a"⟩ ⟨1, "b"⟩ [true, false, true] []
        = [] ++ [if true then ((⟨0, "a"⟩ : Sig), (⟨1, "b"⟩ : Sig))
                 else (⟨1, "b"⟩, ⟨0, "a"⟩)] ∧
      (applyFalsePathCalls ⟨0, "a"⟩ ⟨1, "b"⟩ [true, false, true] []).countP
          (fun p => decide (p = ((⟨0, "a"⟩ : Sig), (⟨1, "b"⟩ : Sig))
            ∨ p = (⟨1, "b"⟩, ⟨0, "a"⟩))) = 1 :=
  c3_false_path_unordered_pair_once [] ⟨0, "a"⟩ ⟨1, "b"⟩ true [false, true]
    (by simp) (by simp)

/-- C4 counterexample.  A failure raised at the finalize step of the Anlogic
`build` propagates while the process is still inside the build directory:
the working directory on exit is `/home/user/build`, not the `/home/user`
that was current when `build` was entered. -/
theorem c4_counterexample :
    (TangDinastyToolchain.build
        ⟨some (BuildErr.osError "finalize failed"), none, 0⟩
        "/home/user" "build" true).result
      = Except.error (BuildErr.osError "finalize failed") ∧
    (TangDinastyToolchain.build
        ⟨some (BuildErr.osError "finalize failed"), none, 0⟩
        "/home/user" "build" true).finalCwd
      ≠ "/home/user" :=
  ⟨rfl, by decide⟩

/-- C4 (amended).  `os.chdir(cwd)` is executed only on the success path (it
is not in a `finally` block), so for every toolchain the working directory
on exit is the entry directory exactly when `build` returns normally; on
every failing exit path the process is left inside the build directory. -/
theorem c4_cwd_restored_only_on_success :
    (∀ (env : BuildEnv) (cwd dir : String) (run : Bool),
      (TangDinastyToolchain.build env cwd dir run).finalCwd
        = match (TangDinastyToolchain.build env cwd dir run).result with
          | Except.ok _ => cwd
          | Except.error _ => joinPath cwd dir) ∧
    (∀ (toolchain : String) (env : BuildEnv) (cwd dir : String) (run : Bool),
      (OSFPGAToolchain.build toolchain env cwd dir run).finalCwd
        = match (OSFPGAToolchain.build toolchain env cwd dir run).result with
          | Except.ok _ => cwd
          | Except.error _ => joinPath cwd dir) ∧
    (∀ (env : BuildEnv) (cwd dir : String) (run : Bool),
      (SymbiflowToolchain.build env cwd dir run).finalCwd
        = match (SymbiflowToolchain.build env cwd dir run).result with
          | Except.ok _ => cwd
          | Except.error _ => joinPath cwd dir) ∧
    (∀ (env : BuildEnv) (cwd dir : String) (run : Bool) (bn : String),
      (MicrosemiLiberoSoCPolarfireToolchain.build env cwd dir run bn).finalCwd
        = match (MicrosemiLiberoSoCPolarfireToolchain.build env cwd dir run bn).result with
          | Except.ok _ => cwd
          | Except.error _ => joinPath cwd dir) := by
  refine ⟨?_, ?_, ?_, ?_⟩
  · rintro ⟨fe, wr, ec⟩ cwd dir run
    cases fe <;> cases wr <;> cases run <;>
      simp [TangDinastyToolchain.build] <;> split <;> simp
  · rintro toolchain ⟨fe, wr, ec⟩ cwd dir run
    cases fe <;> cases wr <;> cases run <;>
      simp [OSFPGAToolchain.build] <;> split <;> simp
  · rintro ⟨fe, wr, ec⟩ cwd dir run
    cases fe <;> cases wr <;> cases run <;>
      simp [SymbiflowToolchain.build] <;> split <;> simp
  · rintro ⟨fe, wr, ec⟩ cwd dir run bn
    cases fe <;> cases wr <;> cases run <;>
      simp [MicrosemiLiberoSoCPolarfireToolchain.build] <;> split <;> simp

/-- C5 counterexample.  The Anlogic project-file emitter `_build_al` embeds
`datetime.datetime.now()` in its output, so two runs on identical inputs
(same build name, family, device and source list) at different wall-clock
times produce different bytes. -/
theorem c5_counterexample :
    anlogic._build_al "top" "EG4" "EG4S20BG256" [] "2024-01-01 00:00:00" ≠
      anlogic._build_al "top" "EG4" "EG4S20BG256" [] "2024-01-01 00:00:01" := by
  set_option maxRecDepth 100000 in decide

/-- C5 (amended).  Each emitter is a pure function of its inputs, but the
Anlogic project-file emitter additionally reads the wall clock: with the
timestamp made explicit, its output (as the emitted line list, whose
newline-join is the file body) is byte-identical between two runs on
identical inputs exactly when the two timestamps coincide.  The constraint
emitters (`_build_adc`, `_build_sdc`, `_build_timing_sdc`, `_build_io_pdc`,
`_build_io_pcf`) take no ambient state at all, so for them the claim holds. -/
theorem c5_build_al_identical_iff_same_date :
    ∀ (nm family device : String) (files : List (String × String × String))
      (d1 d2 : String),
      anlogic._build_al_lines nm family device files d1
          = anlogic._build_al_lines nm family device files d2 ↔ d1 = d2 := by
  intro nm family device files d1 d2
  constructor
  · intro h
    have h2 := congrArg (fun l => l[2]?) h
    simp only [anlogic._build_al_lines, List.cons_append, List.getElem?_cons_succ,
      List.getElem?_cons_zero, Option.some.injEq] at h2
    exact string_sandwich_inj _ _ _ _ h2
  · rintro rfl
    rfl

/-- C6 (confirmed).  Timing-constraint emission is insertion-order
independent: reordering the recorded clock table (with pairwise-distinct
`duid`s) and the false-path set (with pairwise-distinct identifier pairs)
leaves the emitted Microsemi `.sdc` body and the Anlogic/OSFPGA `.sdc`
lines unchanged, because the clock directives are sorted by `duid` and the
false-path directives by the lexicographic pair of `duid`s. -/
theorem c6_timing_emission_order_independent
    (pstr : ℚ → String) (vns sstr : Sig → String)
    (c1 c2 : Clocks) (f1 f2 : List (Sig × Sig)) (extra : List String)
    (hpc : List.Perm c1 c2)
    (hndc : (c1.map (fun e => e.1.duid)).Nodup)
    (hpf : List.Perm f1 f2)
    (hndf : (f1.map (fun p => toLex (p.1.duid, p.2.duid))).Nodup) :
    libero_soc._build_timing_sdc pstr vns sstr c1 f1 extra
        = libero_soc._build_timing_sdc pstr vns sstr c2 f2 extra ∧
      anlogic._build_sdc pstr vns c1 = anlogic._build_sdc pstr vns c2 ∧
      osfpga._build_sdc_lines pstr vns c1 = osfpga._build_sdc_lines pstr vns c2 := by
  have hc := sortByKey_eq_of_perm (fun e : Sig × ℚ => e.1.duid) hpc hndc
  have hf := sortByKey_eq_of_perm (fun p : Sig × Sig => toLex (p.1.duid, p.2.duid))
    hpf hndf
  refine ⟨?_, ?_, ?_⟩
  · simp [libero_soc._build_timing_sdc, libero_soc._build_timing_sdc_lines, hc, hf]
  · simp [anlogic._build_sdc, anlogic._build_sdc_lines, hc]
  · simp [osfpga._build_sdc_lines, hc]

/-- C6 witness: two clocks and two false paths inserted in opposite orders
emit the same text. -/
theorem c6_witness :
    libero_soc._build_timing_sdc (fun _ => "P") Sig.sname Sig.sname
          [(⟨2, "b"⟩, 7), (⟨1, "a"⟩, 5)]
          [(⟨2, "b"⟩, ⟨1, "a"⟩), (⟨1, "a"⟩, ⟨2, "b"⟩)] ["extra"]
        = libero_soc._build_timing_sdc (fun _ => "P") Sig.sname Sig.sname
          [(⟨1, "a"⟩, 5), (⟨2, "b"⟩, 7)]
          [(⟨1, "a"⟩, ⟨2, "b"⟩), (⟨2, "b"⟩, ⟨1, "a"⟩)] ["extra"] ∧
      anlogic._build_sdc (fun _ => "P") Sig.sname [(⟨2, "b"⟩, 7), (⟨1, "a"⟩, 5)]
        = anlogic._build_sdc (fun _ => "P") Sig.sname [(⟨1, "a"⟩, 5), (⟨2, "b"⟩, 7)] ∧
      osfpga._build_sdc_lines (fun _ => "P") Sig.sname [(⟨2, "b"⟩, 7), (⟨1, "a"⟩, 5)]
        = osfpga._build_sdc_lines (fun _ => "P") Sig.sname
          [(⟨1, "a"⟩, 5), (⟨2, "b"⟩, 7)] :=
  c6_timing_emission_order_independent (fun _ => "P") Sig.sname Sig.sname
    [(⟨2, "b"⟩, 7), (⟨1, "a"⟩, 5)] [(⟨1, "a"⟩, 5), (⟨2, "b"⟩, 7)]
    [(⟨2, "b"⟩, ⟨1, "a"⟩), (⟨1, "a"⟩, ⟨2, "b"⟩)]
    [(⟨1, "a"⟩, ⟨2, "b"⟩), (⟨2, "b"⟩, ⟨1, "a"⟩)] ["extra"]
    (List.Perm.swap _ _ _) (by decide) (List.Perm.swap _ _ _) (by decide)

set_option maxRecDepth 100000 in
/-- C7 counterexample.  The attribute set is NOT carried into the emitted
text by every emitter: for `led` bound to pins `[A1, A2]` with attributes
`IOStandard("LVCMOS33")` and `Misc("PULLUP")`, the QuickLogic emitter drops
both attributes (its first entry does not mention `LVCMOS33`), and the
Anlogic emitter drops the `Misc` attribute (its first entry does not
mention `PULLUP`). -/
theorem c7_counterexample :
    symbiflow._build_io_pcf_entries
        [⟨"led", ["A1", "A2"],
          [IOConstraint.ioStandard "LVCMOS33", IOConstraint.misc "PULLUP"], "led"⟩]
      = ["set_io led(0) A1\n", "set_io led(1) A2\n"] ∧
    ¬ ("LVCMOS33".data <:+:
        ("set_io led(0) A1\n" : String).data) ∧
    ¬ ("PULLUP".data <:+:
        (anlogic.adcLine "led[0]" "A1"
          [IOConstraint.ioStandard "LVCMOS33", IOConstraint.misc "PULLUP"]).data) := by
  refine ⟨by decide, by decide, by decide⟩

/-- C7 (amended).  Every IO emitter expands a signal bound to `n > 1` pins
into exactly `n` indexed entries, one per pin in input order — named
`sig[i]` by the Anlogic and Microsemi emitters and `sig(i)` by the
QuickLogic emitter — and each entry is formatted from the parent signal's
whole attribute list.  But only the Microsemi emitter emits every attribute
of that list into each entry's text; the Anlogic emitter formats only
`IOStandard` attributes and the QuickLogic emitter none. -/
theorem c7_multibit_expansion (sig : String) (pins : List String)
    (others : List IOConstraint) (res : String) (hlen : pins.length > 1) :
    anlogic.flat_sc [⟨sig, pins, others, res⟩]
        = pins.enum.map (fun ip => (sig ++ "[" ++ toString ip.1 ++ "]", ip.2, others)) ∧
      libero_soc._build_io_pdc_entries [⟨sig, pins, others, res⟩]
        = pins.enum.map (fun ip =>
            libero_soc._format_io_pdc (sig ++ "[" ++ toString ip.1 ++ "]") ip.2 others) ∧
      symbiflow._build_io_pcf_entries [⟨sig, pins, others, res⟩]
        = pins.enum.map (fun ip =>
            symbiflow._format_io_pcf (sig ++ "(" ++ toString ip.1 ++ ")") ip.2 others) ∧
      (anlogic.flat_sc [⟨sig, pins, others, res⟩]).length = pins.length ∧
      (∀ nm pin c, c ∈ others →
        (libero_soc._format_io_constraint c).data <:+:
          (libero_soc._format_io_pdc nm pin others).data) := by
  refine ⟨?_, ?_, ?_, ?_, ?_⟩
  · simp [anlogic.flat_sc, hlen]
  · simp [libero_soc._build_io_pdc_entries, hlen]
  · simp [symbiflow._build_io_pcf_entries, hlen]
  · simp [anlogic.flat_sc, hlen, List.enum_length]
  · intro nm pin c hc
    have hmem : c ∈ (IOConstraint.pins [pin] :: others) := List.mem_cons_of_mem _ hc
    rcases infix_strConcat_of_mem libero_soc._format_io_constraint hmem with ⟨u, v, huv⟩
    refine ⟨("set_io " ++ "-port_name " ++ libero_soc.tcl_name nm ++ " ").data ++ u,
      v ++ ("-fixed true " ++ "\n" : String).data, ?_⟩
    simp only [libero_soc._format_io_pdc, String.data_append, List.append_assoc]
    rw [← huv]
    simp [String.data_append, List.append_assoc]

/-- C7 witness: `led` bound to pins `[A1, A2]` with an `IOStandard`
attribute. -/
theorem c7_witness :
    anlogic.flat_sc [⟨"led", ["A1", "A2"], [IOConstraint.ioStandard "LVCMOS33"], "led"⟩]
        = (["A1", "A2"] : List String).enum.map
            (fun ip => ("led" ++ "[" ++ toString ip.1 ++ "]", ip.2,
              [IOConstraint.ioStandard "LVCMOS33"])) ∧
      libero_soc._build_io_pdc_entries
          [⟨"led", ["A1", "A2"], [IOConstraint.ioStandard "LVCMOS33"], "led"⟩]
        = (["A1", "A2"] : List String).enum.map
            (fun ip => libero_soc._format_io_pdc ("led" ++ "[" ++ toString ip.1 ++ "]")
              ip.2 [IOConstraint.ioStandard "LVCMOS33"]) ∧
      symbiflow._build_io_pcf_entries
          [⟨"led", ["A1", "A2"], [IOConstraint.ioStandard "LVCMOS33"], "led"⟩]
        = (["A1", "A2"] : List String).enum.map
            (fun ip => symbiflow._format_io_pcf ("led" ++ "(" ++ toString ip.1 ++ ")")
              ip.2 [IOConstraint.ioStandard "LVCMOS33"]) ∧
      (anlogic.flat_sc
          [⟨"led", ["A1", "A2"], [IOConstraint.ioStandard "LVCMOS33"], "led"⟩]).length
        = (["A1", "A2"] : List String).length ∧
      (∀ nm pin c, c ∈ [IOConstraint.ioStandard "LVCMOS33"] →
        (libero_soc._format_io_constraint c).data <:+:
          (libero_soc._format_io_pdc nm pin [IOConstraint.ioStandard "LVCMOS33"]).data) :=
  c7_multibit_expansion "led" ["A1", "A2"] [IOConstraint.ioStandard "LVCMOS33"] "led"
    (by decide)

/-- C8 counterexample.  The Microsemi `build` performs no PATH check before
its run step: with the vendor executable absent from the search path
(`whichResult = none`) it neither fails with a toolchain-not-found error nor
skips the subprocess — the shell is invoked on the generated script and the
build returns normally. -/
theorem c8_counterexample :
    (MicrosemiLiberoSoCPolarfireToolchain.build ⟨none, none, 0⟩
        "/home/user" "build" true "top").result = Except.ok () ∧
    (MicrosemiLiberoSoCPolarfireToolchain.build ⟨none, none, 0⟩
        "/home/user" "build" true "top").calls = [["bash", "build_top.sh"]] :=
  ⟨rfl, by decide⟩

set_option maxRecDepth 400000 in
/-- C8 (amended).  The Anlogic, OSFPGA and QuickLogic toolchains fail fast
when the vendor executable is not discoverable: with run requested and
`shutil.which` returning nothing, `build` raises an `OSError` whose message
contains the "add toolchain to your PATH" setup step, and no subprocess is
invoked.  The Microsemi toolchain performs no such check (see the
counterexample). -/
theorem c8_toolchain_not_found_fail_fast :
    (∀ (env : BuildEnv) (cwd dir : String),
      env.finalizeErr = none → env.whichResult = none →
      TangDinastyToolchain.build env cwd dir true
        = ⟨Except.error (BuildErr.osError tangNotFoundMsg), joinPath cwd dir, []⟩) ∧
    (∀ (toolchain : String) (env : BuildEnv) (cwd dir : String),
      env.finalizeErr = none → env.whichResult = none →
      OSFPGAToolchain.build toolchain env cwd dir true
        = ⟨Except.error (BuildErr.osError (osfpgaNotFoundMsg toolchain)),
           joinPath cwd dir, []⟩) ∧
    (∀ (env : BuildEnv) (cwd dir : String),
      env.finalizeErr = none → env.whichResult = none →
      SymbiflowToolchain.build env cwd dir true
        = ⟨Except.error (BuildErr.osError symbiflowNotFoundMsg), joinPath cwd dir, []⟩) ∧
    ("toolchain to your $PATH".data <:+: tangNotFoundMsg.data) ∧
    (∀ toolchain : String,
      "toolchain to your $PATH".data <:+: (osfpgaNotFoundMsg toolchain).data) ∧
    ("toolchain to your $PATH".data <:+: symbiflowNotFoundMsg.data) := by
  refine ⟨?_, ?_, ?_, by decide, ?_, by decide⟩
  · rintro ⟨fe, wr, ec⟩ cwd dir h1 h2
    simp only at h1 h2
    subst h1; subst h2
    rfl
  · rintro toolchain ⟨fe, wr, ec⟩ cwd dir h1 h2
    simp only at h1 h2
    subst h1; subst h2
    rfl
  · rintro ⟨fe, wr, ec⟩ cwd dir h1 h2
    simp only at h1 h2
    subst h1; subst h2
    rfl
  · intro toolchain
    have hsplit : (" toolchain to your $PATH." : String)
        = " " ++ "toolchain to your $PATH" ++ "." := by decide
    refine ⟨("Unable to find " ++ strUpper toolchain ++
      " toolchain, please:\n- Add " ++ strUpper toolchain ++ " ").data, ".".data, ?_⟩
    rw [osfpgaNotFoundMsg, hsplit]
    simp [String.data_append, List.append_assoc]

/-- C8 witness: the Anlogic part in an environment where `which("td")`
fails. -/
theorem c8_witness :
    TangDinastyToolchain.build ⟨none, none, 1⟩ "/home/user" "build" true
      = ⟨Except.error (BuildErr.osError tangNotFoundMsg),
         joinPath "/home/user" "build", []⟩ :=
  c8_toolchain_not_found_fail_fast.1 ⟨none, none, 1⟩ "/home/user" "build" rfl rfl

set_option maxRecDepth 400000 in
/-- C9 counterexample.  A non-zero exit of the Microsemi run step raises
`OSError("Subprocess failed")` — a message that names neither "Libero" nor
"Microsemi", so the failure does not name the vendor as the claim states
for every toolchain. -/
theorem c9_counterexample :
    (MicrosemiLiberoSoCPolarfireToolchain.build ⟨none, some "/usr/bin/libero", 1⟩
        "/home/user" "build" true "top").result
      = Except.error (BuildErr.osError "Subprocess failed") ∧
    ¬ ("Libero".data <:+: ("Subprocess failed" : String).data) ∧
    ¬ ("Microsemi".data <:+: ("Subprocess failed" : String).data) :=
  ⟨rfl, by decide, by decide⟩

set_option maxRecDepth 400000 in
/-- C9 (amended).  With run requested and the executable found, a non-zero
vendor exit status raises an `OSError` naming the vendor for the Anlogic
("Tang Dinasty"), OSFPGA (the upper-cased toolchain name) and QuickLogic
("QuickLogic Symbiflow") toolchains, while the Microsemi toolchain raises
the generic `OSError("Subprocess failed")`; for every toolchain, a zero
exit status — or run not requested — makes `build` return normally. -/
theorem c9_nonzero_exit_surfaces_failure :
    (∀ (env : BuildEnv) (cwd dir : String) (w : String),
      env.finalizeErr = none → env.whichResult = some w →
      (env.exitCode ≠ 0 →
        (TangDinastyToolchain.build env cwd dir true).result
          = Except.error (BuildErr.osError tangExecFailMsg)) ∧
      (env.exitCode = 0 →
        (TangDinastyToolchain.build env cwd dir true).result = Except.ok ())) ∧
    ("Tang Dinasty".data <:+: tangExecFailMsg.data) ∧
    (∀ (toolchain : String) (env : BuildEnv) (cwd dir : String) (w : String),
      env.finalizeErr = none → env.whichResult = some w →
      (env.exitCode ≠ 0 →
        (OSFPGAToolchain.build toolchain env cwd dir true).result
          = Except.error (BuildErr.osError (osfpgaExecFailMsg toolchain))) ∧
      (env.exitCode = 0 →
        (OSFPGAToolchain.build toolchain env cwd dir true).result = Except.ok ())) ∧
    (∀ toolchain : String,
      (strUpper toolchain).data <:+: (osfpgaExecFailMsg toolchain).data) ∧
    (∀ (env : BuildEnv) (cwd dir : String) (w : String),
      env.finalizeErr = none → env.whichResult = some w →
      (env.exitCode ≠ 0 →
        (SymbiflowToolchain.build env cwd dir true).result
          = Except.error (BuildErr.osError symbiflowExecFailMsg)) ∧
      (env.exitCode = 0 →
        (SymbiflowToolchain.build env cwd dir true).result = Except.ok ())) ∧
    ("QuickLogic Symbiflow".data <:+: symbiflowExecFailMsg.data) ∧
    (∀ (env : BuildEnv) (cwd dir bn : String),
      env.finalizeErr = none →
      (env.exitCode ≠ 0 →
        (MicrosemiLiberoSoCPolarfireToolchain.build env cwd dir true bn).result
          = Except.error (BuildErr.osError "Subprocess failed")) ∧
      (env.exitCode = 0 →
        (MicrosemiLiberoSoCPolarfireToolchain.build env cwd dir true bn).result
          = Except.ok ())) ∧
    (∀ (env : BuildEnv) (cwd dir bn : String) (toolchain : String),
      env.finalizeErr = none →
      (TangDinastyToolchain.build env cwd dir false).result = Except.ok () ∧
      (OSFPGAToolchain.build toolchain env cwd dir false).result = Except.ok () ∧
      (SymbiflowToolchain.build env cwd dir false).result = Except.ok () ∧
      (MicrosemiLiberoSoCPolarfireToolchain.build env cwd dir false bn).result
        = Except.ok ()) := by
  refine ⟨?_, by decide, ?_, ?_, ?_, by decide, ?_, ?_⟩
  · rintro ⟨fe, wr, ec⟩ cwd dir w h1 h2
    simp only at h1 h2
    subst h1; subst h2
    constructor
    · intro hne
      simp [TangDinastyToolchain.build, hne]
    · intro he
      have he2 : ec = 0 := he
      subst he2
      simp [TangDinastyToolchain.build]
  · rintro toolchain ⟨fe, wr, ec⟩ cwd dir w h1 h2
    simp only at h1 h2
    subst h1; subst h2
    constructor
    · intro hne
      simp [OSFPGAToolchain.build, hne]
    · intro he
      have he2 : ec = 0 := he
      subst he2
      simp [OSFPGAToolchain.build]
  · intro toolchain
    refine ⟨"Error occured during ".data, ("\x27s script execution." : String).data, ?_⟩
    simp [osfpgaExecFailMsg, String.data_append, List.append_assoc]
  · rintro ⟨fe, wr, ec⟩ cwd dir w h1 h2
    simp only at h1 h2
    subst h1; subst h2
    constructor
    · intro hne
      simp [SymbiflowToolchain.build, hne]
    · intro he
      have he2 : ec = 0 := he
      subst he2
      simp [SymbiflowToolchain.build]
  · rintro ⟨fe, wr, ec⟩ cwd dir bn h1
    simp only at h1
    subst h1
    constructor
    · intro hne
      simp [MicrosemiLiberoSoCPolarfireToolchain.build, hne]
    · intro he
      have he2 : ec = 0 := he
      subst he2
      simp [MicrosemiLiberoSoCPolarfireToolchain.build]
  · rintro ⟨fe, wr, ec⟩ cwd dir bn toolchain h1
    simp only at h1
    subst h1
    exact ⟨rfl, rfl, rfl, rfl⟩

/-- C9 witness: the Anlogic part with exit status 2, and the Microsemi part
with exit status 2. -/
theorem c9_witness :
    ((1 : Int) ≠ 0 →
      (TangDinastyToolchain.build ⟨none, some "/usr/bin/td", 1⟩
          "/home/user" "build" true).result
        = Except.error (BuildErr.osError tangExecFailMsg)) ∧
    ((1 : Int) = 0 →
      (TangDinastyToolchain.build ⟨none, some "/usr/bin/td", 1⟩
          "/home/user" "build" true).result = Except.ok ()) :=
  c9_nonzero_exit_surfaces_failure.1 ⟨none, some "/usr/bin/td", 1⟩
    "/home/user" "build" "/usr/bin/td" rfl rfl

/-- C10 (confirmed).  `nclkouts_max` is 3 for `TRIONPLL` and 5 for
`TITANIUMPLL`; `create_clkout` asserts `nclkouts < nclkouts_max` before any
state change, succeeds exactly under that precondition, and increments
`nclkouts` by one while appending one `clk_out` entry; hence over any
sequence of calls `nclkouts` equals the number of successful
`create_clkout` calls, and a successfully completed non-empty sequence
never leaves `nclkouts` above `nclkouts_max` — at most `nclkouts_max`
clock outputs can ever be created. -/
theorem c10_efinix_pll_clkout_bound :
    (∀ n, (TRIONPLL.init n).nclkouts_max = 3 ∧ (TRIONPLL.init n).nclkouts = 0) ∧
    (∀ n, (TITANIUMPLL.init n).nclkouts_max = 5 ∧ (TITANIUMPLL.init n).nclkouts = 0) ∧
    (∀ (pll : EFINIXPLL) (freq phase margin : ℚ) (nm : String),
      pll.nclkouts < pll.nclkouts_max →
      ∃ pll2, pll.create_clkout freq phase margin nm = some pll2 ∧
        pll2.nclkouts = pll.nclkouts + 1 ∧
        pll2.nclkouts_max = pll.nclkouts_max ∧
        pll2.clk_out.length = pll.clk_out.length + 1) ∧
    (∀ (pll : EFINIXPLL) (freq phase margin : ℚ) (nm : String),
      ¬ pll.nclkouts < pll.nclkouts_max →
      pll.create_clkout freq phase margin nm = none) ∧
    (∀ (calls : List (ℚ × ℚ × ℚ × String)) (pll pll2 : EFINIXPLL),
      EFINIXPLL.run_clkouts pll calls = some pll2 →
      pll2.nclkouts = pll.nclkouts + calls.length ∧
        pll2.nclkouts_max = pll.nclkouts_max ∧
        pll2.clk_out.length = pll.clk_out.length + calls.length ∧
        (calls ≠ [] → pll2.nclkouts ≤ pll.nclkouts_max)) := by
  have hstep : ∀ (pll : EFINIXPLL) (freq phase margin : ℚ) (nm : String),
      pll.nclkouts < pll.nclkouts_max →
      ∃ pll2, pll.create_clkout freq phase margin nm = some pll2 ∧
        pll2.nclkouts = pll.nclkouts + 1 ∧
        pll2.nclkouts_max = pll.nclkouts_max ∧
        pll2.clk_out.length = pll.clk_out.length + 1 := by
    intro pll freq phase margin nm h
    refine ⟨{ pll with
        nclkouts := pll.nclkouts + 1,
        clk_out := pll.clk_out ++
          [(if nm = "" then pll.pll_name ++ "_clkout" ++ toString pll.nclkouts else nm,
            freq, phase, margin)] }, ?_, rfl, rfl, by simp⟩
    simp [EFINIXPLL.create_clkout, h]
  refine ⟨fun n => ⟨rfl, rfl⟩, fun n => ⟨rfl, rfl⟩, hstep, ?_, ?_⟩
  · intro pll freq phase margin nm h
    simp [EFINIXPLL.create_clkout, h]
  · intro calls
    induction calls with
    | nil =>
      intro pll pll2 h
      rw [EFINIXPLL.run_clkouts] at h
      injection h with h2
      subst h2
      simp
    | cons c rest ih =>
      intro pll pll2 h
      rw [EFINIXPLL.run_clkouts] at h
      rcases hc : pll.create_clkout c.1 c.2.1 c.2.2.1 c.2.2.2 with _ | pll1
      · rw [hc] at h; cases h
      · rw [hc] at h
        simp only at h
        have hlt : pll.nclkouts < pll.nclkouts_max := by
          by_contra hge
          have hnone : pll.create_clkout c.1 c.2.1 c.2.2.1 c.2.2.2 = none := by
            simp [EFINIXPLL.create_clkout, hge]
          rw [hnone] at hc
          cases hc
        obtain ⟨e1, e2, e3⟩ :
            pll1.nclkouts = pll.nclkouts + 1 ∧
              pll1.nclkouts_max = pll.nclkouts_max ∧
              pll1.clk_out.length = pll.clk_out.length + 1 := by
          rcases hstep pll c.1 c.2.1 c.2.2.1 c.2.2.2 hlt with ⟨pll1x, hx, h2, h3, h4⟩
          rw [hc] at hx
          injection hx with hx2
          subst hx2
          exact ⟨h2, h3, h4⟩
        rcases ih pll1 pll2 h with ⟨i1, i2, i3, i4⟩
        refine ⟨?_, ?_, ?_, ?_⟩
        · rw [i1, e1, List.length_cons]
          omega
        · rw [i2, e2]
        · rw [i3, e3, List.length_cons]
          omega
        · intro _
          cases rest with
          | nil =>
            rw [EFINIXPLL.run_clkouts] at h
            injection h with h2
            subst h2
            omega
          | cons r rs =>
            have h4 := i4 (by simp)
            omega

/-- C10 witness: two `create_clkout` calls on a fresh `TRIONPLL`. -/
theorem c10_witness :
    ∃ pll2, (TRIONPLL.init 0).create_clkout 100 0 0 "" = some pll2 ∧
      pll2.nclkouts = (TRIONPLL.init 0).nclkouts + 1 ∧
      pll2.nclkouts_max = (TRIONPLL.init 0).nclkouts_max ∧
      pll2.clk_out.length = (TRIONPLL.init 0).clk_out.length + 1 :=
  c10_efinix_pll_clkout_bound.2.2.1 (TRIONPLL.init 0) 100 0 0 "" (by decide)
